import Mathlib

/-!
# MyPL front end: shallow embedding of `src/lexer.h` and `src/parser.h`

This development embeds the MyPL lexer (`Lexer::next_token`) and the
recursive-descent parser (`Parser::parse` and its helper productions) as
executable Lean functions and settles the specification claims about them.

Conventions of the embedding:
* the input character stream is a `List Char`; `std::istream::get`/`peek`
  past the end of the stream return EOF, modelled as `Option Char` with
  `none` playing the role of EOF;
* C++ `int` line/column counters are modelled as `Int`;
* every loop and every (mutually) recursive descent function takes a
  `fuel : Nat` argument and returns a "diverged" marker when the fuel runs
  out; a function whose C++ original loops forever on some input is one
  whose embedding returns the diverged marker on that input *for every*
  fuel value;
* lexical errors (`MyPLException(LEXER, ...)`) and syntax errors
  (`MyPLException(SYNTAX, ...)`) are explicit error results carrying the
  message, line and column of the C++ `throw`.

`token.h` and `ast.h` are not part of `src/`; the `Token` record and the
AST node types are taken from the spec data model (§3) together with the
field names visible in `src/parser.h` and `src/printer.h`.
-/

namespace MyPL

/-- Token kinds of MyPL.  Modelled from the spec: `token.h` is not in
`src/`; the enumerators are the ones used by `src/lexer.h` and
`src/parser.h` (and listed in spec §3). -/
inductive TokenType where
  | EOS | COMMA | LPAREN | RPAREN | COLON | DOT | ASSIGN
  | PLUS | MINUS | MULTIPLY | DIVIDE | MODULO
  | EQUAL | NOT_EQUAL | LESS | LESS_EQUAL | GREATER | GREATER_EQUAL
  | NEG | AND | OR | NOT
  | TYPE | WHILE | FOR | TO | DO | IF | THEN | ELSEIF | ELSE | END
  | FUN | VAR | RETURN | NEW
  | BOOL_TYPE | INT_TYPE | DOUBLE_TYPE | CHAR_TYPE | STRING_TYPE | NIL
  | BOOL_VAL | INT_VAL | DOUBLE_VAL | CHAR_VAL | STRING_VAL | ID
  deriving DecidableEq, Repr

/-- Modelled from the spec: a token is a kind, the lexeme text, and the
1-based line/column where the lexeme starts (spec §3). -/
structure Token where
  type : TokenType
  lexeme : String
  line : Int
  column : Int
  deriving DecidableEq, Repr

/-! ## Lexer state (`src/lexer.h`, lines 28-62)

The C++ lexer holds `std::istream& input_stream; int line; int column;`.
`read()` increments `column` and consumes one character; `peek()` looks at
the next character without consuming. -/

structure LexState where
  input : List Char
  line : Int
  column : Int
  deriving DecidableEq, Repr

/-- `Lexer::peek` — `input_stream.peek()`; `none` is EOF. -/
def lexPeek (s : LexState) : Option Char := s.input.head?

/-- `Lexer::read` — `column++; return input_stream.get();` (the returned
character is `lexPeek` of the pre-state; reading past the end of the
stream consumes nothing but still increments `column`). -/
def lexRead (s : LexState) : LexState :=
  ⟨s.input.tail, s.line, s.column + 1⟩

/-- C `std::isspace` on the `peek()` result (EOF is not a space). -/
def isspaceO : Option Char → Bool
  | none => false
  | some c => c = ' ' || c = '\t' || c = '\n' || c = '\x0b' || c = '\x0c' || c = '\r'

/-- C `std::isdigit` on the `peek()` result (EOF is not a digit). -/
def isdigitO : Option Char → Bool
  | none => false
  | some c => '0' ≤ c && c ≤ '9'

/-- C `std::isalpha` on the `peek()` result (EOF is not a letter). -/
def isalphaO : Option Char → Bool
  | none => false
  | some c => ('a' ≤ c && c ≤ 'z') || ('A' ≤ c && c ≤ 'Z')

/-- Result of one `Lexer::next_token` call: a token plus the advanced
lexer state, a lexical error (`Lexer::error`, lexer.h line 65), or
divergence (the C++ call never returns). -/
inductive LexRes where
  | div
  | err (msg : String) (line : Int) (column : Int)
  | tok (t : Token) (s : LexState)
  deriving DecidableEq, Repr

/-- lexer.h lines 80-82: `while(peek() != '\n'){ read(); }` — the inner
scan of a line comment.  At end of stream `peek()` returns EOF, which is
never `'\n'`, so the loop spins without consuming input. -/
def skipToNl (fuel : Nat) (s : LexState) : Option LexState :=
  match fuel with
  | 0 => none
  | fuel + 1 =>
    if lexPeek s ≠ some '\n' then skipToNl fuel (lexRead s) else some s

/-- lexer.h lines 78-89: `bool comment = true; while(comment){ ... }` —
after the inner scan reaches the newline the code runs `line++;
column = 0; read();` (so `column` ends at 1) and keeps skipping while the
next line also starts with `#`. -/
def commentLoop (fuel : Nat) (s : LexState) : Option LexState :=
  match fuel with
  | 0 => none
  | fuel + 1 =>
    match skipToNl fuel s with
    | none => none
    | some s1 =>
      -- line++; column = 0; read();  (read() bumps column to 1 and eats '\n')
      let s2 : LexState := ⟨s1.input.tail, s1.line + 1, 0 + 1⟩
      if lexPeek s2 ≠ some '#' then some s2 else commentLoop fuel s2

/-- lexer.h lines 75-99: the outer
`while(std::isspace(peek()) || peek() == '#')` whitespace/comment skip.
A bare newline runs `read(); line++; column = 0;` (column ends at 0,
unlike the comment path which ends at 1). -/
def skipLoop (fuel : Nat) (s : LexState) : Option LexState :=
  match fuel with
  | 0 => none
  | fuel + 1 =>
    if isspaceO (lexPeek s) || lexPeek s = some '#' then
      if lexPeek s = some '#' then
        match commentLoop fuel (lexRead s) with
        | none => none
        | some s2 => skipLoop fuel s2
      else if lexPeek s = some '\n' then
        skipLoop fuel ⟨s.input.tail, s.line + 1, 0⟩
      else
        skipLoop fuel (lexRead s)
    else some s

/-- lexer.h lines 216-223: the string-literal scan
`while(peek() != '\n' && peek() != '\"')`.  A backslash is itself appended
(`s += read()`), an escaped `'\"'` is appended, and then one further
character is appended unconditionally; so escapes are kept verbatim in
the lexeme.  At end of stream the loop spins (EOF is neither `'\n'` nor
`'\"'`; the C++ keeps appending `(char)EOF`, which the model drops —
the accumulator is never returned on that path). -/
def stringLoop (fuel : Nat) (s : LexState) (acc : String) : Option (String × LexState) :=
  match fuel with
  | 0 => none
  | fuel + 1 =>
    match lexPeek s with
    | some '\n' => some (acc, s)
    | some '"' => some (acc, s)
    | _ =>
      if lexPeek s = some '\\' then
        let acc1 := acc.push '\\'
        let s1 := lexRead s
        if lexPeek s1 = some '"' then
          let acc2 := acc1.push '"'
          let s2 := lexRead s1
          match lexPeek s2 with
          | some c2 => stringLoop fuel (lexRead s2) (acc2.push c2)
          | none => stringLoop fuel (lexRead s2) acc2
        else
          match lexPeek s1 with
          | some c2 => stringLoop fuel (lexRead s1) (acc1.push c2)
          | none => stringLoop fuel (lexRead s1) acc1
      else
        match lexPeek s with
        | some c => stringLoop fuel (lexRead s) (acc.push c)
        | none => stringLoop fuel (lexRead s) acc

/-- lexer.h lines 239-241: the integer-part scan
`while(!std::isspace(peek()) && peek()!='.' && std::isdigit(peek()))`. -/
def digitLoop1 (fuel : Nat) (s : LexState) (acc : String) : Option (String × LexState) :=
  match fuel with
  | 0 => none
  | fuel + 1 =>
    if !(isspaceO (lexPeek s)) && lexPeek s ≠ some '.' && isdigitO (lexPeek s) then
      match lexPeek s with
      | some c => digitLoop1 fuel (lexRead s) (acc.push c)
      | none => digitLoop1 fuel (lexRead s) acc
    else some (acc, s)

/-- lexer.h lines 244-246: the fractional-part scan
`while(!std::isspace(peek()) && std::isdigit(peek()))`. -/
def digitLoop2 (fuel : Nat) (s : LexState) (acc : String) : Option (String × LexState) :=
  match fuel with
  | 0 => none
  | fuel + 1 =>
    if !(isspaceO (lexPeek s)) && isdigitO (lexPeek s) then
      match lexPeek s with
      | some c => digitLoop2 fuel (lexRead s) (acc.push c)
      | none => digitLoop2 fuel (lexRead s) acc
    else some (acc, s)

/-- lexer.h lines 261-263: the identifier/keyword scan
`while(std::isalpha(peek()) || peek() == '_' || std::isdigit(peek()))`. -/
def wordLoop (fuel : Nat) (s : LexState) (acc : String) : Option (String × LexState) :=
  match fuel with
  | 0 => none
  | fuel + 1 =>
    if isalphaO (lexPeek s) || lexPeek s = some '_' || isdigitO (lexPeek s) then
      match lexPeek s with
      | some c => wordLoop fuel (lexRead s) (acc.push c)
      | none => wordLoop fuel (lexRead s) acc
    else some (acc, s)

/-- lexer.h lines 264-341: the reserved-word table; anything not in the
table is an `ID`. -/
def keywordType (lexeme : String) : TokenType :=
  if lexeme = "neg" then .NEG
  else if lexeme = "and" then .AND
  else if lexeme = "or" then .OR
  else if lexeme = "not" then .NOT
  else if lexeme = "type" then .TYPE
  else if lexeme = "while" then .WHILE
  else if lexeme = "for" then .FOR
  else if lexeme = "to" then .TO
  else if lexeme = "do" then .DO
  else if lexeme = "if" then .IF
  else if lexeme = "then" then .THEN
  else if lexeme = "elseif" then .ELSEIF
  else if lexeme = "else" then .ELSE
  else if lexeme = "end" then .END
  else if lexeme = "fun" then .FUN
  else if lexeme = "var" then .VAR
  else if lexeme = "return" then .RETURN
  else if lexeme = "new" then .NEW
  else if lexeme = "bool" then .BOOL_TYPE
  else if lexeme = "int" then .INT_TYPE
  else if lexeme = "double" then .DOUBLE_TYPE
  else if lexeme = "char" then .CHAR_TYPE
  else if lexeme = "string" then .STRING_TYPE
  else if lexeme = "nil" then .NIL
  else if lexeme = "true" || lexeme = "false" then .BOOL_VAL
  else .ID

/-- lexer.h lines 71-344: `Lexer::next_token` — skip whitespace/comments,
then dispatch on the next character.  Branches appear in source order:
EOF, the ten single-character symbols (including `.` at line 145, which
makes the second `.` branch at line 188 unreachable), the two-character
operators, `!`, character literals, string literals, numbers, and
identifiers/keywords; the fall-through at line 343 is the
"Unknown token" lexical error (its C++ message text is garbled by a
`std::string(count, char)` constructor mix-up, so only the prefix is
modelled). -/
def nextToken (fuel : Nat) (s0 : LexState) : LexRes :=
  match fuel with
  | 0 => .div
  | fuel + 1 =>
    match skipLoop fuel s0 with
    | none => .div
    | some s =>
      match lexPeek s with
      | none =>
        -- if(peek() == EOF){ read(); return Token(EOS, "", line, column-1); }
        let s1 := lexRead s
        .tok ⟨.EOS, "", s1.line, s1.column - 1⟩ s1
      | some c =>
        if c = ',' then
          let s1 := lexRead s
          .tok ⟨.COMMA, ",", s1.line, s1.column - 1⟩ s1
        else if c = '(' then
          let s1 := lexRead s
          .tok ⟨.LPAREN, "(", s1.line, s1.column - 1⟩ s1
        else if c = ')' then
          let s1 := lexRead s
          .tok ⟨.RPAREN, ")", s1.line, s1.column - 1⟩ s1
        else if c = ':' then
          let s1 := lexRead s
          .tok ⟨.COLON, ":", s1.line, s1.column - 1⟩ s1
        else if c = '+' then
          let s1 := lexRead s
          .tok ⟨.PLUS, "+", s1.line, s1.column - 1⟩ s1
        else if c = '-' then
          let s1 := lexRead s
          .tok ⟨.MINUS, "-", s1.line, s1.column - 1⟩ s1
        else if c = '*' then
          let s1 := lexRead s
          .tok ⟨.MULTIPLY, "*", s1.line, s1.column - 1⟩ s1
        else if c = '/' then
          let s1 := lexRead s
          .tok ⟨.DIVIDE, "/", s1.line, s1.column - 1⟩ s1
        else if c = '%' then
          let s1 := lexRead s
          .tok ⟨.MODULO, "%", s1.line, s1.column - 1⟩ s1
        else if c = '.' then
          let s1 := lexRead s
          .tok ⟨.DOT, ".", s1.line, s1.column - 1⟩ s1
        else if c = '=' then
          let s1 := lexRead s
          if lexPeek s1 = some '=' then
            let s2 := lexRead s1
            .tok ⟨.EQUAL, "==", s2.line, s2.column - 2⟩ s2
          else
            .tok ⟨.ASSIGN, "=", s1.line, s1.column - 1⟩ s1
        else if c = '<' then
          let s1 := lexRead s
          if lexPeek s1 = some '=' then
            let s2 := lexRead s1
            .tok ⟨.LESS_EQUAL, "<=", s2.line, s2.column - 2⟩ s2
          else
            .tok ⟨.LESS, "<", s1.line, s1.column - 1⟩ s1
        else if c = '>' then
          let s1 := lexRead s
          if lexPeek s1 = some '=' then
            let s2 := lexRead s1
            .tok ⟨.GREATER_EQUAL, ">=", s2.line, s2.column - 2⟩ s2
          else
            .tok ⟨.GREATER, ">", s1.line, s1.column - 1⟩ s1
        else if c = '!' then
          let s1 := lexRead s
          if lexPeek s1 = some '=' then
            let s2 := lexRead s1
            .tok ⟨.NOT_EQUAL, "!=", s2.line, s2.column - 2⟩ s2
          else
            .err "! is invalid syntax" s1.line s1.column
        else if c = Char.ofNat 39 then
          -- character literal; Char.ofNat 39 is the single-quote character
          let s1 := lexRead s
          if lexPeek s1 = some (Char.ofNat 39) then
            .err "\x27\x27 is an invalid char" s1.line s1.column
          else
            let lexeme : String :=
              match lexPeek s1 with
              | some ch => String.mk [ch]
              | none => String.mk [Char.ofNat 255]  -- (char)EOF appended by C++
            let s2 := lexRead s1
            if lexPeek s2 = some (Char.ofNat 39) then
              let s3 := lexRead s2
              .tok ⟨.CHAR_VAL, lexeme, s3.line, s3.column - 3⟩ s3
            else
              .err "Expecting \x27" s2.line s2.column
        else if c = '"' then
          let s1 := lexRead s
          match stringLoop fuel s1 "" with
          | none => .div
          | some (str, s2) =>
            if lexPeek s2 = some '\n' then
              let s3 := lexRead s2
              .err "Expecting \"" s3.line s3.column
            else if lexPeek s2 = some '"' then
              let s3 := lexRead s2
              .tok ⟨.STRING_VAL, str, s3.line, s3.column - str.length - 2⟩ s3
            else
              -- unreachable: stringLoop only stops at newline or quote
              .err "Unknown token " s2.line s2.column
        else if isdigitO (some c) then
          let s1 := lexRead s
          match digitLoop1 fuel s1 (String.mk [c]) with
          | none => .div
          | some (lexeme1, s2) =>
            if lexPeek s2 = some '.' then
              let s3 := lexRead s2
              match digitLoop2 fuel s3 (lexeme1.push '.') with
              | none => .div
              | some (lexeme2, s4) =>
                if !(isdigitO (lexPeek s4)) && !(isspaceO (lexPeek s4)) then
                  .err "Invalid double value" s4.line s4.column
                else
                  .tok ⟨.DOUBLE_VAL, lexeme2, s4.line, s4.column - lexeme2.length⟩ s4
            else if !(isalphaO (lexPeek s2)) then
              .tok ⟨.INT_VAL, lexeme1, s2.line, s2.column - lexeme1.length⟩ s2
            else
              -- digit run followed by a letter falls through to line 343
              .err "Unknown token " s2.line s2.column
        else if isalphaO (some c) then
          let s1 := lexRead s
          match wordLoop fuel s1 (String.mk [c]) with
          | none => .div
          | some (lexeme, s2) =>
            .tok ⟨keywordType lexeme, lexeme, s2.line, s2.column - lexeme.length⟩ s2
        else
          .err "Unknown token " s.line s.column

/-! ## AST (spec §3; `ast.h` is not in `src/`)

Modelled from the spec: node variants and field names follow spec §3 and
the member accesses in `src/parser.h` / `src/printer.h`
(`negated`, `first`, `op`, `rest`, `rvalue`, `lvalue_list`, `path`,
`function_id`, `arg_list`, `type_id`, `var_id`, `params`, `vdecls`,
`if_part`, `else_ifs`, `body_stmts`, `stmts`, `return_type`).
`Expr.first` is always assigned by `Parser::expr`, but `Parser::rvalue`
can fall through all of its branches leaving `SimpleTerm::rvalue` at its
default (null), hence the `Option RValue` field. -/

mutual
inductive Expr where
  | mk (negated : Bool) (first : Term) (op : Option Token) (rest : Option Expr)

inductive Term where
  | simple (rvalue : Option RValue)
  | complex (expr : Expr)

inductive RValue where
  | simpleRV (value : Token)
  | newRV (type_id : Token)
  | callRV (function_id : Token) (arg_list : List Expr)
  | idrRV (path : List Token)
  | negatedRV (expr : Expr)
end

/-- The `op` field of an `Expr` (the optional binary-operator token). -/
def Expr.opOf : Expr → Option Token
  | .mk _ _ o _ => o

/-- The `first` field of an `Expr`. -/
def Expr.firstOf : Expr → Term
  | .mk _ f _ _ => f

/-- `VarDeclStmt{id, declared_type (optional), init expr}` (spec §3). -/
structure VarDeclStmt where
  id : Token
  type : Option Token
  expr : Expr

mutual
inductive Stmt where
  | varDecl (v : VarDeclStmt)
  | assign (lvalue_list : List Token) (expr : Expr)
  | callStmt (function_id : Token) (arg_list : List Expr)
  | ifStmt (if_part : BasicIf) (else_ifs : List BasicIf) (body_stmts : List Stmt)
  | whileStmt (expr : Expr) (stmts : List Stmt)
  | forStmt (var_id : Token) (start : Expr) (end_ : Expr) (stmts : List Stmt)
  | returnStmt (expr : Expr)

inductive BasicIf where
  | mk (expr : Expr) (stmts : List Stmt)
end

/-- `FunDecl::FunParam` — one `(id, type)` parameter pair. -/
structure FunParam where
  id : Token
  type : Token

/-- `FunDecl` (spec §3). -/
structure FunDecl where
  return_type : Token
  id : Token
  params : List FunParam
  stmts : List Stmt

/-- `TypeDecl` (spec §3). -/
structure TypeDecl where
  id : Token
  vdecls : List VarDeclStmt

inductive Decl where
  | typeD (d : TypeDecl)
  | funD (d : FunDecl)

/-- `Program` — ordered sequence of declarations. -/
structure Program where
  decls : List Decl

/-! ## Parser state and primitives (`src/parser.h`, lines 15-98) -/

/-- The `EOS` token the token stream is extended with past its end (the
C++ lexer keeps returning `EOS` tokens at end of stream). -/
def eosTok : Token := ⟨.EOS, "", 0, 0⟩

/-- Parser state: `curr_token` plus the not-yet-consumed suffix of the
token stream. -/
structure PState where
  curr : Token
  rest : List Token
  deriving DecidableEq

/-- `Parser::advance` — `curr_token = lexer.next_token();`. -/
def pAdvance (s : PState) : PState :=
  match s.rest with
  | [] => ⟨eosTok, []⟩
  | t :: ts => ⟨t, ts⟩

/-- A `MyPLException(SYNTAX, ...)` thrown by `Parser::error`
(parser.h lines 84-90). -/
structure ParseErr where
  msg : String
  line : Int
  column : Int
  deriving DecidableEq, Repr

/-- Result of a recursive-descent function: divergence, a thrown syntax
error, or a value plus the advanced parser state. -/
inductive PRes (α : Type) where
  | div
  | err (e : ParseErr)
  | ok (a : α) (s : PState)

/-- `Parser::error` — message text `err_msg + "found '" + lexeme + "'"`
at the current token's position. -/
def pErr (err_msg : String) (s : PState) : ParseErr :=
  ⟨err_msg ++ "found \x27" ++ s.curr.lexeme ++ "\x27", s.curr.line, s.curr.column⟩

/-- `Parser::eat` — advance on a kind match, otherwise `error`. -/
def pEat (t : TokenType) (err_msg : String) (s : PState) : PRes Unit :=
  if s.curr.type = t then .ok () (pAdvance s) else .err (pErr err_msg s)

/-- `Parser::is_operator` (parser.h lines 93-98). -/
def is_operator (t : TokenType) : Bool :=
  t = .PLUS || t = .MINUS || t = .DIVIDE || t = .MULTIPLY ||
  t = .MODULO || t = .AND || t = .OR || t = .EQUAL || t = .LESS ||
  t = .GREATER || t = .LESS_EQUAL || t = .GREATER_EQUAL || t = .NOT_EQUAL

/-- `Parser::dtype` (parser.h lines 172-182): accept one of the five
primitive type names or an `ID` and return that token. -/
def dtypeF (s : PState) : PRes Token :=
  if s.curr.type = .INT_TYPE || s.curr.type = .DOUBLE_TYPE ||
     s.curr.type = .BOOL_TYPE || s.curr.type = .CHAR_TYPE ||
     s.curr.type = .STRING_TYPE || s.curr.type = .ID then
    .ok s.curr (pAdvance s)
  else .err (pErr "invalid declared type " s)

/-! ## Recursive-descent functions (`src/parser.h`, lines 101-447)

Each C++ `while` loop is split into its own recursive function
(`...WhileF` / the loop-shaped originals `lvalue`, `idrval`, `vdecls`,
`stmts`, `args`).  Output parameters passed by reference in C++
(`std::list` accumulators) become explicit accumulator arguments and
results. -/

mutual
/-- parser.h lines 103-119, loop body: `while (curr_token.type() != EOS)`
dispatching on `TYPE` / `FUN`; any other token matches no branch and the
loop re-tests the unchanged `curr_token`. -/
def parseLoopF (fuel : Nat) (s : PState) (decls : List Decl) : PRes (List Decl) :=
  match fuel with
  | 0 => .div
  | fuel + 1 =>
    if s.curr.type = .EOS then .ok decls s
    else if s.curr.type = .TYPE then
      match tdeclF fuel s with
      | .div => .div
      | .err e => .err e
      | .ok td s1 => parseLoopF fuel s1 (decls ++ [.typeD td])
    else if s.curr.type = .FUN then
      match fdeclF fuel s with
      | .div => .div
      | .err e => .err e
      | .ok fd s1 => parseLoopF fuel s1 (decls ++ [.funD fd])
    else
      parseLoopF fuel s decls

/-- parser.h lines 122-129: `Parser::tdecl`. -/
def tdeclF (fuel : Nat) (s : PState) : PRes TypeDecl :=
  match fuel with
  | 0 => .div
  | fuel + 1 =>
    let s1 := pAdvance s
    let idTok := s1.curr
    match pEat .ID "expecting variable ID " s1 with
    | .div => .div
    | .err e => .err e
    | .ok _ s2 =>
      match vdeclsF fuel s2 [] with
      | .div => .div
      | .err e => .err e
      | .ok vds s3 =>
        match pEat .END "expecting \x27END\x27 keyword " s3 with
        | .div => .div
        | .err e => .err e
        | .ok _ s4 => .ok ⟨idTok, vds⟩ s4

/-- parser.h lines 131-137: `Parser::vdecls` — `while(curr_token.type() == VAR)`. -/
def vdeclsF (fuel : Nat) (s : PState) (acc : List VarDeclStmt) : PRes (List VarDeclStmt) :=
  match fuel with
  | 0 => .div
  | fuel + 1 =>
    if s.curr.type = .VAR then
      match vdecl_stmtF fuel s with
      | .div => .div
      | .err e => .err e
      | .ok v s1 => vdeclsF fuel s1 (acc ++ [v])
    else .ok acc s

/-- parser.h lines 139-154: `Parser::fdecl`. -/
def fdeclF (fuel : Nat) (s : PState) : PRes FunDecl :=
  match fuel with
  | 0 => .div
  | fuel + 1 =>
    let s1 := pAdvance s
    let afterRet : PRes Token :=
      if s1.curr.type = .NIL then .ok s1.curr (pAdvance s1)
      else dtypeF s1
    match afterRet with
    | .div => .div
    | .err e => .err e
    | .ok retTok s2 =>
      let idTok := s2.curr
      match pEat .ID "expecting variable ID " s2 with
      | .div => .div
      | .err e => .err e
      | .ok _ s3 =>
        match pEat .LPAREN "expecting \x27(\x27 " s3 with
        | .div => .div
        | .err e => .err e
        | .ok _ s4 =>
          match paramsF fuel s4 [] with
          | .div => .div
          | .err e => .err e
          | .ok ps s5 =>
            match pEat .RPAREN "expecting \x27)\x27 " s5 with
            | .div => .div
            | .err e => .err e
            | .ok _ s6 =>
              match stmtsF fuel s6 [] with
              | .div => .div
              | .err e => .err e
              | .ok body s7 =>
                match pEat .END "expecting \x27END\x27 keyword " s7 with
                | .div => .div
                | .err e => .err e
                | .ok _ s8 => .ok ⟨retTok, idTok, ps, body⟩ s8

/-- parser.h lines 156-170: `Parser::params`.  On an `ID` the code builds
a local `FunDecl::FunParam p` (id, `:`, dtype) but — unlike the sibling
version of this file — never runs `ps.push_back(p)`, so the accumulated
list is returned unchanged; then `while(curr_token.type() == COMMA)`
re-enters `params` recursively.  With no `ID` and no `RPAREN` it raises
`"invalid parameter "`. -/
def paramsF (fuel : Nat) (s : PState) (ps : List FunParam) : PRes (List FunParam) :=
  match fuel with
  | 0 => .div
  | fuel + 1 =>
    if s.curr.type = .ID then
      let pId := s.curr
      let s1 := pAdvance s
      match pEat .COLON "expecting \x27:\x27 " s1 with
      | .div => .div
      | .err e => .err e
      | .ok _ s2 =>
        match dtypeF s2 with
        | .div => .div
        | .err e => .err e
        | .ok pType s3 =>
          -- FunDecl::FunParam p built here (⟨pId, pType⟩) but never appended
          let _p : FunParam := ⟨pId, pType⟩
          paramsWhileF fuel s3 ps
    else if s.curr.type ≠ .RPAREN then .err (pErr "invalid parameter " s)
    else .ok ps s

/-- parser.h lines 163-166: the `while(curr_token.type() == COMMA)` loop
inside `Parser::params`. -/
def paramsWhileF (fuel : Nat) (s : PState) (ps : List FunParam) : PRes (List FunParam) :=
  match fuel with
  | 0 => .div
  | fuel + 1 =>
    if s.curr.type = .COMMA then
      match paramsF fuel (pAdvance s) ps with
      | .div => .div
      | .err e => .err e
      | .ok ps' s1 => paramsWhileF fuel s1 ps'
    else .ok ps s

/-- parser.h lines 184-194: `Parser::stmts` — recurse while the current
token can start a statement. -/
def stmtsF (fuel : Nat) (s : PState) (acc : List Stmt) : PRes (List Stmt) :=
  match fuel with
  | 0 => .div
  | fuel + 1 =>
    if s.curr.type = .VAR || s.curr.type = .ID || s.curr.type = .IF ||
       s.curr.type = .WHILE || s.curr.type = .FOR || s.curr.type = .RETURN then
      match stmtF fuel s acc with
      | .div => .div
      | .err e => .err e
      | .ok acc' s1 => stmtsF fuel s1 acc'
    else .ok acc s

/-- parser.h lines 196-239: `Parser::stmt`.  In the `ID` case the
identifier is consumed first; if the next token is `LPAREN` it is a call
statement, if `ASSIGN` or `DOT` an assignment (the consumed identifier is
pushed as head of `lvalue_list`); any other follower matches no branch,
so nothing is appended and the consumed identifier is dropped. -/
def stmtF (fuel : Nat) (s : PState) (acc : List Stmt) : PRes (List Stmt) :=
  match fuel with
  | 0 => .div
  | fuel + 1 =>
    if s.curr.type = .VAR then
      match vdecl_stmtF fuel s with
      | .div => .div
      | .err e => .err e
      | .ok v s1 => .ok (acc ++ [.varDecl v]) s1
    else if s.curr.type = .ID then
      let idTok := s.curr
      let s1 := pAdvance s
      if s1.curr.type = .LPAREN then
        match call_exprF fuel s1 with
        | .div => .div
        | .err e => .err e
        | .ok args s2 => .ok (acc ++ [.callStmt idTok args]) s2
      else if s1.curr.type = .ASSIGN || s1.curr.type = .DOT then
        match assign_stmtF fuel s1 [idTok] with
        | .div => .div
        | .err e => .err e
        | .ok st s2 => .ok (acc ++ [st]) s2
      else .ok acc s1
    else if s.curr.type = .IF then
      match cond_stmtF fuel s with
      | .div => .div
      | .err e => .err e
      | .ok st s1 => .ok (acc ++ [st]) s1
    else if s.curr.type = .WHILE then
      match while_stmtF fuel s with
      | .div => .div
      | .err e => .err e
      | .ok st s1 => .ok (acc ++ [st]) s1
    else if s.curr.type = .FOR then
      match for_stmtF fuel s with
      | .div => .div
      | .err e => .err e
      | .ok st s1 => .ok (acc ++ [st]) s1
    else if s.curr.type = .RETURN then
      match exit_stmtF fuel s with
      | .div => .div
      | .err e => .err e
      | .ok st s1 => .ok (acc ++ [st]) s1
    else .ok acc s

/-- parser.h lines 241-251: `Parser::vdecl_stmt`. -/
def vdecl_stmtF (fuel : Nat) (s : PState) : PRes VarDeclStmt :=
  match fuel with
  | 0 => .div
  | fuel + 1 =>
    let s1 := pAdvance s
    let idTok := s1.curr
    match pEat .ID "expecting id " s1 with
    | .div => .div
    | .err e => .err e
    | .ok _ s2 =>
      let afterType : PRes (Option Token) :=
        if s2.curr.type = .COLON then
          match dtypeF (pAdvance s2) with
          | .div => .div
          | .err e => .err e
          | .ok ty s3 => .ok (some ty) s3
        else .ok none s2
      match afterType with
      | .div => .div
      | .err e => .err e
      | .ok ty s3 =>
        match pEat .ASSIGN "expecting \x27=\x27 " s3 with
        | .div => .div
        | .err e => .err e
        | .ok _ s4 =>
          match exprF fuel s4 with
          | .div => .div
          | .err e => .err e
          | .ok e s5 => .ok ⟨idTok, ty, e⟩ s5

/-- parser.h lines 253-258: `Parser::assign_stmt` — the first identifier
is already in the list; scan the remaining `.id` path, eat `=`, parse the
right-hand expression. -/
def assign_stmtF (fuel : Nat) (s : PState) (lvalue_list : List Token) : PRes Stmt :=
  match fuel with
  | 0 => .div
  | fuel + 1 =>
    match lvalueF fuel s lvalue_list with
    | .div => .div
    | .err e => .err e
    | .ok lv s1 =>
      match pEat .ASSIGN "expecting \x27=\x27 " s1 with
      | .div => .div
      | .err e => .err e
      | .ok _ s2 =>
        match exprF fuel s2 with
        | .div => .div
        | .err e => .err e
        | .ok e s3 => .ok (.assign lv e) s3

/-- parser.h lines 260-266: `Parser::lvalue` — `while(curr_token.type() == DOT)`. -/
def lvalueF (fuel : Nat) (s : PState) (acc : List Token) : PRes (List Token) :=
  match fuel with
  | 0 => .div
  | fuel + 1 =>
    if s.curr.type = .DOT then
      let s1 := pAdvance s
      let t := s1.curr
      match pEat .ID "expecting id " s1 with
      | .div => .div
      | .err e => .err e
      | .ok _ s2 => lvalueF fuel s2 (acc ++ [t])
    else .ok acc s

/-- parser.h lines 268-277: `Parser::cond_stmt`. -/
def cond_stmtF (fuel : Nat) (s : PState) : PRes Stmt :=
  match fuel with
  | 0 => .div
  | fuel + 1 =>
    let s1 := pAdvance s
    match exprF fuel s1 with
    | .div => .div
    | .err e => .err e
    | .ok e s2 =>
      match pEat .THEN "expecting \x27then\x27 keyword " s2 with
      | .div => .div
      | .err e => .err e
      | .ok _ s3 =>
        match stmtsF fuel s3 [] with
        | .div => .div
        | .err e => .err e
        | .ok bs s4 =>
          match condtF fuel s4 [] with
          | .div => .div
          | .err e => .err e
          | .ok (eifs, ebody) s5 =>
            match pEat .END "expecting \x27end\x27 keyword " s5 with
            | .div => .div
            | .err e => .err e
            | .ok _ s6 => .ok (.ifStmt ⟨e, bs⟩ eifs ebody) s6

/-- parser.h lines 279-293: `Parser::condt` — collect `elseif` clauses
recursively; an `else` fills `body_stmts` and ends the chain. -/
def condtF (fuel : Nat) (s : PState) (eifs : List BasicIf) :
    PRes (List BasicIf × List Stmt) :=
  match fuel with
  | 0 => .div
  | fuel + 1 =>
    if s.curr.type = .ELSEIF then
      let s1 := pAdvance s
      match exprF fuel s1 with
      | .div => .div
      | .err e => .err e
      | .ok e s2 =>
        match pEat .THEN "expecting \x27then\x27 keyword " s2 with
        | .div => .div
        | .err e => .err e
        | .ok _ s3 =>
          match stmtsF fuel s3 [] with
          | .div => .div
          | .err e => .err e
          | .ok bs s4 => condtF fuel s4 (eifs ++ [⟨e, bs⟩])
    else if s.curr.type = .ELSE then
      match stmtsF fuel (pAdvance s) [] with
      | .div => .div
      | .err e => .err e
      | .ok bs s1 => .ok (eifs, bs) s1
    else .ok (eifs, []) s

/-- parser.h lines 295-301: `Parser::while_stmt`. -/
def while_stmtF (fuel : Nat) (s : PState) : PRes Stmt :=
  match fuel with
  | 0 => .div
  | fuel + 1 =>
    let s1 := pAdvance s
    match exprF fuel s1 with
    | .div => .div
    | .err e => .err e
    | .ok e s2 =>
      match pEat .DO "expecting \x27do\x27 keyword " s2 with
      | .div => .div
      | .err e => .err e
      | .ok _ s3 =>
        match stmtsF fuel s3 [] with
        | .div => .div
        | .err e => .err e
        | .ok bs s4 =>
          match pEat .END "expecting \x27end\x27 keyword " s4 with
          | .div => .div
          | .err e => .err e
          | .ok _ s5 => .ok (.whileStmt e bs) s5

/-- parser.h lines 303-314: `Parser::for_stmt`. -/
def for_stmtF (fuel : Nat) (s : PState) : PRes Stmt :=
  match fuel with
  | 0 => .div
  | fuel + 1 =>
    let s1 := pAdvance s
    let varTok := s1.curr
    match pEat .ID "expecting id " s1 with
    | .div => .div
    | .err e => .err e
    | .ok _ s2 =>
      match pEat .ASSIGN "expecting \x27=\x27 " s2 with
      | .div => .div
      | .err e => .err e
      | .ok _ s3 =>
        match exprF fuel s3 with
        | .div => .div
        | .err e => .err e
        | .ok startE s4 =>
          match pEat .TO "expecting \x27to\x27 keyword " s4 with
          | .div => .div
          | .err e => .err e
          | .ok _ s5 =>
            match exprF fuel s5 with
            | .div => .div
            | .err e => .err e
            | .ok endE s6 =>
              match pEat .DO "expecting \x27do\x27 keyword " s6 with
              | .div => .div
              | .err e => .err e
              | .ok _ s7 =>
                match stmtsF fuel s7 [] with
                | .div => .div
                | .err e => .err e
                | .ok bs s8 =>
                  match pEat .END "expecting \x27end\x27 keyword" s8 with
                  | .div => .div
                  | .err e => .err e
                  | .ok _ s9 => .ok (.forStmt varTok startE endE bs) s9

/-- parser.h lines 316-320: `Parser::call_expr` — `(` args `)`; the
`function_id` was filled by the caller. -/
def call_exprF (fuel : Nat) (s : PState) : PRes (List Expr) :=
  match fuel with
  | 0 => .div
  | fuel + 1 =>
    match pEat .LPAREN "expecting \x27(\x27 " s with
    | .div => .div
    | .err e => .err e
    | .ok _ s1 =>
      match argsF fuel s1 [] with
      | .div => .div
      | .err e => .err e
      | .ok args s2 =>
        match pEat .RPAREN "expecting \x27)\x27 " s2 with
        | .div => .div
        | .err e => .err e
        | .ok _ s3 => .ok args s3

/-- parser.h lines 322-342: `Parser::args` — if the current token can
start an expression, parse one, then `while(curr_token.type() == COMMA)`
re-enter `args` recursively; otherwise return the list unchanged (no
error branch). -/
def argsF (fuel : Nat) (s : PState) (acc : List Expr) : PRes (List Expr) :=
  match fuel with
  | 0 => .div
  | fuel + 1 =>
    if s.curr.type = .NOT || s.curr.type = .LPAREN || s.curr.type = .NIL ||
       s.curr.type = .NEW || s.curr.type = .NEG || s.curr.type = .INT_VAL ||
       s.curr.type = .DOUBLE_VAL || s.curr.type = .BOOL_VAL ||
       s.curr.type = .CHAR_VAL || s.curr.type = .STRING_VAL ||
       s.curr.type = .ID then
      match exprF fuel s with
      | .div => .div
      | .err e => .err e
      | .ok e s1 => argsWhileF fuel s1 (acc ++ [e])
    else .ok acc s

/-- parser.h lines 337-340: the `while(curr_token.type() == COMMA)` loop
inside `Parser::args`. -/
def argsWhileF (fuel : Nat) (s : PState) (acc : List Expr) : PRes (List Expr) :=
  match fuel with
  | 0 => .div
  | fuel + 1 =>
    if s.curr.type = .COMMA then
      match argsF fuel (pAdvance s) acc with
      | .div => .div
      | .err e => .err e
      | .ok acc' s1 => argsWhileF fuel s1 acc'
    else .ok acc s

/-- parser.h lines 344-347: `Parser::exit_stmt` — `return expr`. -/
def exit_stmtF (fuel : Nat) (s : PState) : PRes Stmt :=
  match fuel with
  | 0 => .div
  | fuel + 1 =>
    match exprF fuel (pAdvance s) with
    | .div => .div
    | .err e => .err e
    | .ok e s1 => .ok (.returnStmt e) s1

/-- parser.h lines 349-373: `Parser::expr` — `NOT expr` (sets `negated`
and wraps in a `ComplexTerm`), `( expr )` (wraps in a `ComplexTerm`), or
an rvalue `SimpleTerm`; then, if the current token is an operator, the
*entire* remainder is parsed recursively as `rest` (no precedence). -/
def exprF (fuel : Nat) (s : PState) : PRes Expr :=
  match fuel with
  | 0 => .div
  | fuel + 1 =>
    let afterFirst : PRes (Bool × Term) :=
      if s.curr.type = .NOT then
        match exprF fuel (pAdvance s) with
        | .div => .div
        | .err e => .err e
        | .ok inner s2 => .ok (true, .complex inner) s2
      else if s.curr.type = .LPAREN then
        match exprF fuel (pAdvance s) with
        | .div => .div
        | .err e => .err e
        | .ok inner s2 =>
          match pEat .RPAREN "expecting \x27)\x27 " s2 with
          | .div => .div
          | .err e => .err e
          | .ok _ s3 => .ok (false, .complex inner) s3
      else
        match rvalueF fuel s with
        | .div => .div
        | .err e => .err e
        | .ok rv s2 => .ok (false, .simple rv) s2
    match afterFirst with
    | .div => .div
    | .err e => .err e
    | .ok (neg, first) s2 =>
      if is_operator s2.curr.type then
        -- op(exp->op) re-checks is_operator (true here) and advances
        let opTok := s2.curr
        match exprF fuel (pAdvance s2) with
        | .div => .div
        | .err e => .err e
        | .ok restE s3 => .ok (.mk neg first (some opTok) (some restE)) s3
      else .ok (.mk neg first none none) s2

/-- parser.h lines 383-427: `Parser::rvalue`.  The `ID` branch consumes
the identifier and, when it is not a call, builds an `IDRValue` whose
`path` receives only the `.id` continuations scanned by `idrval` — the
consumed identifier itself is never pushed.  If no branch matches, the
C++ leaves the output parameter untouched (null), modelled as `none`. -/
def rvalueF (fuel : Nat) (s : PState) : PRes (Option RValue) :=
  match fuel with
  | 0 => .div
  | fuel + 1 =>
    if s.curr.type = .INT_VAL || s.curr.type = .DOUBLE_VAL ||
       s.curr.type = .BOOL_VAL || s.curr.type = .CHAR_VAL ||
       s.curr.type = .STRING_VAL then
      -- pval(sRVal->value): copy the literal token and advance
      .ok (some (.simpleRV s.curr)) (pAdvance s)
    else if s.curr.type = .NIL then
      .ok (some (.simpleRV s.curr)) (pAdvance s)
    else if s.curr.type = .NEW then
      let s1 := pAdvance s
      let tid := s1.curr
      match pEat .ID "expecting type id " s1 with
      | .div => .div
      | .err e => .err e
      | .ok _ s2 => .ok (some (.newRV tid)) s2
    else if s.curr.type = .ID then
      let idTok := s.curr
      let s1 := pAdvance s
      if s1.curr.type = .LPAREN then
        match call_exprF fuel s1 with
        | .div => .div
        | .err e => .err e
        | .ok args s2 => .ok (some (.callRV idTok args)) s2
      else
        match idrvalF fuel s1 [] with
        | .div => .div
        | .err e => .err e
        | .ok path s2 => .ok (some (.idrRV path)) s2
    else if s.curr.type = .NEG then
      match exprF fuel (pAdvance s) with
      | .div => .div
      | .err e => .err e
      | .ok e s1 => .ok (some (.negatedRV e)) s1
    else .ok none s

/-- parser.h lines 441-447: `Parser::idrval` — `while(curr_token.type() == DOT)`
appending each `.id` to `path`. -/
def idrvalF (fuel : Nat) (s : PState) (acc : List Token) : PRes (List Token) :=
  match fuel with
  | 0 => .div
  | fuel + 1 =>
    if s.curr.type = .DOT then
      let s1 := pAdvance s
      let t := s1.curr
      match pEat .ID "expecting id " s1 with
      | .div => .div
      | .err e => .err e
      | .ok _ s2 => idrvalF fuel s2 (acc ++ [t])
    else .ok acc s
end

/-- parser.h lines 103-119: `Parser::parse` over a finite token stream —
initial `advance()`, the top-level declaration loop, then
`eat(EOS, "expecting end-of-file ")`. -/
def parseF (fuel : Nat) (toks : List Token) : PRes Program :=
  match fuel with
  | 0 => .div
  | fuel + 1 =>
    let s0 := pAdvance ⟨eosTok, toks⟩
    match parseLoopF fuel s0 [] with
    | .div => .div
    | .err e => .err e
    | .ok ds s1 =>
      match pEat .EOS "expecting end-of-file " s1 with
      | .div => .div
      | .err e => .err e
      | .ok _ s2 => .ok ⟨ds⟩ s2

/-! ## Concrete tokens and token streams used by the claims -/

/-- A token with the given kind and lexeme (positions are irrelevant to
the parser's control flow and are fixed at 0). -/
def tk (ty : TokenType) (lx : String) : Token := ⟨ty, lx, 0, 0⟩

/-- Token stream of `fun nil f() return x end`. -/
def returnXToks : List Token :=
  [tk .FUN "fun", tk .NIL "nil", tk .ID "f", tk .LPAREN "(", tk .RPAREN ")",
   tk .RETURN "return", tk .ID "x", tk .END "end"]

/-- Token stream of `fun int f(x: int) end`. -/
def oneParamToks : List Token :=
  [tk .FUN "fun", tk .INT_TYPE "int", tk .ID "f", tk .LPAREN "(",
   tk .ID "x", tk .COLON ":", tk .INT_TYPE "int", tk .RPAREN ")", tk .END "end"]

/-- Token stream of `fun nil f() x end` (a bare identifier in statement
position). -/
def bareIdBodyToks : List Token :=
  [tk .FUN "fun", tk .NIL "nil", tk .ID "f", tk .LPAREN "(", tk .RPAREN ")",
   tk .ID "x", tk .END "end"]

/-- Token stream of `fun int f(x: int,) end` (trailing comma in the
parameter list). -/
def trailingCommaParamToks : List Token :=
  [tk .FUN "fun", tk .INT_TYPE "int", tk .ID "f", tk .LPAREN "(",
   tk .ID "x", tk .COLON ":", tk .INT_TYPE "int", tk .COMMA ",",
   tk .RPAREN ")", tk .END "end"]

/-- Token stream of `fun nil f() g(1,) end` (trailing comma in an
argument list). -/
def trailingCommaArgToks : List Token :=
  [tk .FUN "fun", tk .NIL "nil", tk .ID "f", tk .LPAREN "(", tk .RPAREN ")",
   tk .ID "g", tk .LPAREN "(", tk .INT_VAL "1", tk .COMMA ",",
   tk .RPAREN ")", tk .END "end"]

/-! ## C1 -/

/-- parser.h lines 106-117: once `curr_token` is neither `EOS` nor `TYPE`
nor `FUN`, no branch of the `while` body fires and no token is consumed,
so the loop re-tests the same state forever. -/
theorem parseLoopF_stuck (s : PState) (decls : List Decl)
    (h1 : s.curr.type ≠ .EOS) (h2 : s.curr.type ≠ .TYPE) (h3 : s.curr.type ≠ .FUN) :
    ∀ fuel : Nat, parseLoopF fuel s decls = .div := by
  intro fuel
  induction fuel with
  | zero => rfl
  | succ f ih => simpa [parseLoopF, h1, h2, h3] using ih

/-- C1: the claim says `Parser::parse` always terminates, either returning
a built `Program` or throwing a `SyntaxError`, and in particular that a
top-level token that is neither `TYPE` nor `FUN` nor `EOS` causes a
failure rather than looping forever.  The code violates this: its
top-level `while (curr_token.type() != EOS)` loop (parser.h lines
106-117) has no branch for any other token kind and consumes nothing, so
on the one-token stream `ID "x"` the parse diverges for every fuel
bound — it neither returns nor throws. -/
theorem parse_diverges_on_stray_toplevel_token :
    ∀ fuel : Nat, parseF fuel [⟨.ID, "x", 1, 1⟩] = .div := by
  intro fuel
  cases fuel with
  | zero => rfl
  | succ f =>
    have h := parseLoopF_stuck ⟨⟨.ID, "x", 1, 1⟩, []⟩ []
      (by decide) (by decide) (by decide) f
    simp [parseF, pAdvance, h]

/-- Instantiation of `parseLoopF_stuck` at a concrete state. -/
theorem parseLoopF_stuck_witness :
    parseLoopF 5 ⟨⟨.ID, "x", 1, 1⟩, []⟩ [] = .div :=
  parseLoopF_stuck ⟨⟨.ID, "x", 1, 1⟩, []⟩ [] (by decide) (by decide) (by decide) 5

/-! ## C2 -/

/-- C2: the claim says every `IDRValue` path in a parsed AST has length
at least 1 and that a bare identifier r-value `x` yields an `IDRValue`
whose path contains that identifier.  The code violates this:
`Parser::rvalue` (parser.h lines 406-419) consumes the identifier into a
local and calls `idrval`, which only appends `.id` continuations
(parser.h lines 441-447) — nothing ever pushes the identifier itself, so
parsing `fun nil f() return x end` yields an `IDRValue` with the *empty*
path (the printer's `node.path.back()` would be called on an empty
list). -/
theorem parse_bare_id_rvalue_has_empty_path :
    parseF 60 returnXToks =
      .ok ⟨[.funD ⟨tk .NIL "nil", tk .ID "f", [],
        [.returnStmt (.mk false (.simple (some (.idrRV []))) none none)]⟩]⟩
        ⟨eosTok, []⟩ := by
  rfl

/-! ## C3 -/

/-- C3: the claim says parsing `fun int f(x: int) end` produces a
`FunDecl` whose `params` holds exactly the declared `(id, type)` pair.
The code violates this: `Parser::params` (parser.h lines 156-170) builds
the local `FunDecl::FunParam p` but never executes `ps.push_back(p)`, so
the resulting `params` list is empty. -/
theorem parse_one_param_fun_has_empty_params :
    parseF 60 oneParamToks =
      .ok ⟨[.funD ⟨tk .INT_TYPE "int", tk .ID "f", [], []⟩]⟩ ⟨eosTok, []⟩ := by
  rfl

/-! ## C4 -/

/-- C4: in statement position, an identifier followed by a token that is
none of `LPAREN`, `DOT`, `ASSIGN` raises no error: `Parser::stmt`
(parser.h lines 202-218) consumes the identifier, matches no inner
branch, and appends no statement; consequently `fun nil f() x end`
parses successfully to a `FunDecl` with an empty body. -/
theorem stmt_silently_drops_bare_identifier
    (fuel : Nat) (x t : Token) (rest : List Token) (acc : List Stmt)
    (hx : x.type = .ID) (h1 : t.type ≠ .LPAREN)
    (h2 : t.type ≠ .ASSIGN) (h3 : t.type ≠ .DOT) :
    stmtF (fuel + 1) ⟨x, t :: rest⟩ acc = .ok acc ⟨t, rest⟩ ∧
    parseF 60 bareIdBodyToks =
      .ok ⟨[.funD ⟨tk .NIL "nil", tk .ID "f", [], []⟩]⟩ ⟨eosTok, []⟩ := by
  refine ⟨?_, by rfl⟩
  simp [stmtF, pAdvance, hx, h1, h2, h3]

/-- Instantiation of `stmt_silently_drops_bare_identifier` at the body
`x end`. -/
theorem stmt_silently_drops_bare_identifier_witness :
    stmtF 1 ⟨tk .ID "x", [tk .END "end"]⟩ [] = .ok [] ⟨tk .END "end", []⟩ ∧
    parseF 60 bareIdBodyToks =
      .ok ⟨[.funD ⟨tk .NIL "nil", tk .ID "f", [], []⟩]⟩ ⟨eosTok, []⟩ :=
  stmt_silently_drops_bare_identifier 0 (tk .ID "x") (tk .END "end") [] []
    (by decide) (by decide) (by decide) (by decide)

/-! ## C5 -/

/-- lexer.h lines 80-82: the inner comment scan never returns when the
remaining input holds no newline (EOF compares unequal to `'\n'` and
`read()` past the end consumes nothing). -/
theorem skipToNl_no_newline :
    ∀ (fuel : Nat) (cs : List Char) (l c : Int), '\n' ∉ cs →
      skipToNl fuel ⟨cs, l, c⟩ = none := by
  intro fuel
  induction fuel with
  | zero => intro cs l c _; rfl
  | succ f ih =>
    intro cs l c h
    cases cs with
    | nil =>
      simp only [skipToNl, lexPeek, lexRead, List.head?_nil, List.tail_nil]
      rw [if_pos (by simp)]
      exact ih [] l (c + 1) (by simp)
    | cons ch cs' =>
      have hch : ch ≠ '\n' := fun heq => h (heq ▸ List.mem_cons_self ch cs')
      simp only [skipToNl, lexPeek, lexRead, List.head?_cons, List.tail_cons]
      rw [if_pos (by simp [hch])]
      exact ih cs' l (c + 1) (fun hm => h (List.mem_cons_of_mem _ hm))

/-- lexer.h lines 78-89: the comment loop diverges when no newline
remains. -/
theorem commentLoop_no_newline (fuel : Nat) (cs : List Char) (l c : Int)
    (h : '\n' ∉ cs) : commentLoop fuel ⟨cs, l, c⟩ = none := by
  cases fuel with
  | zero => rfl
  | succ f => simp [commentLoop, skipToNl_no_newline f cs l c h]

/-- Instantiation of `skipToNl_no_newline` at a concrete input. -/
theorem skipToNl_no_newline_witness : skipToNl 9 ⟨['a', 'b'], 1, 2⟩ = none :=
  skipToNl_no_newline 9 ['a', 'b'] 1 2 (by decide)

/-- Instantiation of `commentLoop_no_newline` at a concrete input. -/
theorem commentLoop_no_newline_witness : commentLoop 9 ⟨['a', 'b'], 1, 2⟩ = none :=
  commentLoop_no_newline 9 ['a', 'b'] 1 2 (by decide)

/-- C5: the claim says `Lexer::next_token` always returns exactly one
token, and in particular that input ending inside a line comment still
terminates and yields `EOS`.  The code violates this: on the input
`"#ab"` (a comment with no terminating newline) the scan
`while(peek() != '\n')` at lexer.h lines 80-82 spins forever at end of
stream, so `next_token` diverges for every fuel bound. -/
theorem next_token_diverges_in_unterminated_comment :
    ∀ fuel : Nat, nextToken fuel ⟨['#', 'a', 'b'], 1, 1⟩ = .div := by
  intro fuel
  cases fuel with
  | zero => rfl
  | succ f =>
    have hskip : skipLoop f ⟨['#', 'a', 'b'], 1, 1⟩ = none := by
      cases f with
      | zero => rfl
      | succ f' =>
        simp [skipLoop, lexPeek, lexRead, isspaceO,
          commentLoop_no_newline f' ['a', 'b'] 1 2 (by decide)]
    simp [nextToken, hskip]

/-! ## C6 -/

/-- C6: the claim says digits `.` digits lexes to a single `DOUBLE_VAL`
in any following context (including before `)` or end of stream), and
that digits `.` with no following digit (e.g. `3.` before a space) is a
lexical error.  The code does the opposite on both counts: after the
fractional scan, lexer.h line 247 raises `"Invalid double value"`
whenever the next character is neither a digit nor whitespace — so
`3.14)` and `3.14` at end of stream are lexical errors — while `3.`
followed by a space sails through the same test and is returned as a
`DOUBLE_VAL` with lexeme `"3."`. -/
theorem double_literal_context_dependent :
    nextToken 30 ⟨['3', '.', '1', '4', ')'], 1, 1⟩ =
      .err "Invalid double value" 1 5 ∧
    nextToken 30 ⟨['3', '.', '1', '4'], 1, 1⟩ =
      .err "Invalid double value" 1 5 ∧
    nextToken 30 ⟨['3', '.', ' '], 1, 1⟩ =
      .tok ⟨.DOUBLE_VAL, "3.", 1, 1⟩ ⟨[' '], 1, 3⟩ ∧
    nextToken 30 ⟨['3', '.', '1', '4', ' '], 1, 1⟩ =
      .tok ⟨.DOUBLE_VAL, "3.14", 1, 1⟩ ⟨[' '], 1, 5⟩ := by
  exact ⟨rfl, rfl, rfl, rfl⟩

/-! ## C7 -/

/-- C7 counterexample: the claim says the `STRING_VAL` lexeme is the
*unescaped* text.  Lexing `"a\"b"` (six characters of source) yields the
four-character lexeme `a\"b` — the backslash is kept — which differs
from the unescaped three-character text `a"b`. -/
theorem string_lexeme_not_unescaped :
    nextToken 30 ⟨['"', 'a', '\\', '"', 'b', '"'], 1, 1⟩ =
      .tok ⟨.STRING_VAL, "a\\\"b", 1, 1⟩ ⟨[], 1, 7⟩ ∧
    "a\\\"b" ≠ "a\"b" := by
  exact ⟨rfl, by decide⟩

/-- C7 (amended): a backslash escapes the following character, so an
escaped quote does not terminate the string; the scan stops at the first
unescaped closing quote and consumes nothing beyond it (any suffix
`rest` of the stream is left untouched); but the lexeme is the verbatim
source text between the delimiters with the backslash retained (lexer.h
lines 216-223 append the backslash itself and the escaped character). -/
theorem string_scan_stops_at_unescaped_quote (rest : List Char) :
    nextToken 30 ⟨['"', 'a', '\\', '"', 'b', '"'] ++ rest, 1, 1⟩ =
      .tok ⟨.STRING_VAL, "a\\\"b", 1, 1⟩ ⟨rest, 1, 7⟩ := by
  rfl

/-! ## C8 -/

/-- C8: the claim says token positions are 1-based both on the first line
and after a newline.  The first half holds — lexing `"  x"` yields
`ID "x"` at line 1, column 3 — but the code violates the second half:
lexer.h lines 91-95 reset `column` to 0 *after* `read()` has consumed
the newline, so the first token of the following line starts the count
one too low and `y` in `"x\ny"` is reported at column 0 (line 2), not
column 1. -/
theorem first_token_after_newline_has_column_zero :
    nextToken 30 ⟨[' ', ' ', 'x'], 1, 1⟩ =
      .tok ⟨.ID, "x", 1, 3⟩ ⟨[], 1, 4⟩ ∧
    nextToken 30 ⟨['x', '\n', 'y'], 1, 1⟩ =
      .tok ⟨.ID, "x", 1, 1⟩ ⟨['\n', 'y'], 1, 2⟩ ∧
    nextToken 30 ⟨['\n', 'y'], 1, 2⟩ =
      .tok ⟨.ID, "y", 2, 0⟩ ⟨[], 2, 1⟩ := by
  exact ⟨rfl, rfl, rfl⟩

/-! ## C9 -/

/-- C9: the claim says a trailing comma in a parameter or argument list
always fails with a `SyntaxError`.  The code violates this: after a
comma, `Parser::params` re-enters itself (parser.h lines 163-166) and
the recursive call returns silently on `RPAREN` (line 168 only errors
when the token is *not* `RPAREN`); `Parser::args` likewise re-enters
itself after a comma (lines 337-340) and has no error branch at all.  So
both `fun int f(x: int,) end` and `fun nil f() g(1,) end` parse
successfully. -/
theorem trailing_comma_accepted :
    parseF 60 trailingCommaParamToks =
      .ok ⟨[.funD ⟨tk .INT_TYPE "int", tk .ID "f", [], []⟩]⟩ ⟨eosTok, []⟩ ∧
    parseF 60 trailingCommaArgToks =
      .ok ⟨[.funD ⟨tk .NIL "nil", tk .ID "f", [],
        [.callStmt (tk .ID "g")
          [.mk false (.simple (some (.simpleRV (tk .INT_VAL "1")))) none none]]⟩]⟩
        ⟨eosTok, []⟩ := by
  exact ⟨rfl, rfl⟩

/-! ## C10 -/

/-- The right-leaning chain `2 * 3` that both `1 + 2 * 3` and
`1 + (2 * 3)` end with. -/
def chain23 : Expr :=
  .mk false (.simple (some (.simpleRV (tk .INT_VAL "2")))) (some (tk .MULTIPLY "*"))
    (some (.mk false (.simple (some (.simpleRV (tk .INT_VAL "3")))) none none))

/-- Parse tree of `1 + 2 * 3`: first term `1`, operator `+`, rest the
chain `2 * 3`. -/
def exprNoParen : Expr :=
  .mk false (.simple (some (.simpleRV (tk .INT_VAL "1")))) (some (tk .PLUS "+"))
    (some chain23)

/-- Parse tree of `1 + (2 * 3)`: identical to `exprNoParen` except that
the rest is the same chain `2 * 3` wrapped in the `ComplexTerm`
introduced by the parentheses. -/
def exprParenRight : Expr :=
  .mk false (.simple (some (.simpleRV (tk .INT_VAL "1")))) (some (tk .PLUS "+"))
    (some (.mk false (.complex chain23) none none))

/-- Parse tree of `(1 + 2) * 3`: a left-grouped tree, structurally
different from both of the above. -/
def exprParenLeft : Expr :=
  .mk false
    (.complex (.mk false (.simple (some (.simpleRV (tk .INT_VAL "1"))))
      (some (tk .PLUS "+"))
      (some (.mk false (.simple (some (.simpleRV (tk .INT_VAL "2")))) none none))))
    (some (tk .MULTIPLY "*"))
    (some (.mk false (.simple (some (.simpleRV (tk .INT_VAL "3")))) none none))

/-- The `rest` field of an `Expr`. -/
def Expr.restOf : Expr → Option Expr
  | .mk _ _ _ r => r

/-- C10: binary operator chains parse with no precedence, right-grouped:
`1 + 2 * 3` parses to first term `1`, operator `+`, rest the chain
`2 * 3`; `1 + (2 * 3)` parses to the same tree except that its rest
wraps the *same* chain in the `ComplexTerm` introduced by the
parentheses (same first term and operator); and `(1 + 2) * 3` parses to
a structurally different, left-grouped tree. -/
theorem expr_chain_right_grouped_no_precedence :
    exprF 30 ⟨tk .INT_VAL "1",
        [tk .PLUS "+", tk .INT_VAL "2", tk .MULTIPLY "*", tk .INT_VAL "3"]⟩ =
      .ok exprNoParen ⟨eosTok, []⟩ ∧
    exprF 30 ⟨tk .INT_VAL "1",
        [tk .PLUS "+", tk .LPAREN "(", tk .INT_VAL "2", tk .MULTIPLY "*",
         tk .INT_VAL "3", tk .RPAREN ")"]⟩ =
      .ok exprParenRight ⟨eosTok, []⟩ ∧
    exprF 30 ⟨tk .LPAREN "(",
        [tk .INT_VAL "1", tk .PLUS "+", tk .INT_VAL "2", tk .RPAREN ")",
         tk .MULTIPLY "*", tk .INT_VAL "3"]⟩ =
      .ok exprParenLeft ⟨eosTok, []⟩ ∧
    exprNoParen.firstOf = exprParenRight.firstOf ∧
    exprNoParen.opOf = exprParenRight.opOf ∧
    exprNoParen.restOf = some chain23 ∧
    exprParenRight.restOf = some (.mk false (.complex chain23) none none) ∧
    exprParenLeft ≠ exprNoParen ∧
    exprParenLeft ≠ exprParenRight := by
  refine ⟨rfl, rfl, rfl, rfl, rfl, rfl, rfl, ?_, ?_⟩
  · intro h
    have := congrArg Expr.opOf h
    simp [exprParenLeft, exprNoParen, Expr.opOf, tk] at this
  · intro h
    have := congrArg Expr.opOf h
    simp [exprParenLeft, exprParenRight, Expr.opOf, tk] at this

end MyPL
